import Mathlib

/-!
Verification of `aiomysql/connection.py` (MySQL client-server wire protocol
implementation).  Every definition in this file is a shallow embedding of the
corresponding Python function from `src/aiomysql/connection.py`, with bytes
modelled as `Nat` (values `< 256`), fallible code returning `Option`, and the
packet/transport objects imported from `pymysql` (external collaborators per
the specification) modelled abstractly by their observable interface.
-/

namespace Aiomysql

/-! ## Packet framing (`Connection._execute_command`, `Connection._read_packet`) -/

/-- Maximum frame payload size, `pymysql.connections.MAX_PACKET_LEN = 2**24 - 1`. -/
def MAX_PACKET_LEN : Nat := 16777215

/-- One wire frame: a sequence-number byte and the frame payload.  On the wire
the frame is sent as a 3-byte little-endian payload length, the sequence byte,
then the payload; the length field always equals `payload.length`, so it is
left implicit here. -/
structure Frame where
  seq : Nat
  payload : List Nat
deriving DecidableEq, Repr

/-- Embeds the `while True:` chunking loop of `Connection._execute_command`
(lines 456-467): each iteration takes `chunk_size = min(MAX_PACKET_LEN, len(sql))`
bytes into a frame tagged `seq_id % 256`, and the loop exits after emitting a
frame when the remainder is empty and the chunk was shorter than
`MAX_PACKET_LEN` (so an exact-multiple payload is terminated by a zero-length
frame). -/
def write_frames_loop (seq : Nat) (sql : List Nat) : List Frame :=
  if sql.drop (min MAX_PACKET_LEN sql.length) = [] ∧
      min MAX_PACKET_LEN sql.length < MAX_PACKET_LEN then
    [⟨seq % 256, sql.take (min MAX_PACKET_LEN sql.length)⟩]
  else
    ⟨seq % 256, sql.take (min MAX_PACKET_LEN sql.length)⟩ ::
      write_frames_loop (seq + 1) (sql.drop (min MAX_PACKET_LEN sql.length))
termination_by sql.length
decreasing_by
  rename_i h
  rw [List.length_drop]
  rcases Nat.eq_zero_or_pos sql.length with h0 | hpos
  · exact absurd ⟨by simp [List.eq_nil_of_length_eq_zero h0],
      by simp [h0, MAX_PACKET_LEN]⟩ h
  · have hmin : 0 < min MAX_PACKET_LEN sql.length :=
      lt_min (by simp [MAX_PACKET_LEN]) hpos
    omega

/-- Frame emission of `Connection._execute_command` (lines 448-467) as a
function of the logical payload, i.e. the command byte followed by the encoded
command body.  The code computes `chunk_size = min(MAX_PACKET_LEN, len(sql)+1)`
and writes the 4-byte prelude (3-byte length plus sequence byte 0, since
`struct.pack('<i', chunk_size)` has a zero high byte) followed by
`command` and `sql[:chunk_size-1]`, which is exactly `payload[:chunk_size]`
for `payload = command_byte + sql`; it returns if the chunk was short, and
otherwise continues with `sql[chunk_size-1:] = payload[chunk_size:]` at
sequence number 1. -/
def write_frames (payload : List Nat) : List Frame :=
  if min MAX_PACKET_LEN payload.length < MAX_PACKET_LEN then
    [⟨0, payload.take (min MAX_PACKET_LEN payload.length)⟩]
  else
    ⟨0, payload.take (min MAX_PACKET_LEN payload.length)⟩ ::
      write_frames_loop 1 (payload.drop (min MAX_PACKET_LEN payload.length))

/-- Literal transcription of `Connection._execute_command`'s write sequence in
terms of its own variables (`command` byte and body `sql`). -/
def execute_command_frames (command : Nat) (sql : List Nat) : List Frame :=
  if min MAX_PACKET_LEN (sql.length + 1) < MAX_PACKET_LEN then
    [⟨0, command :: sql.take (min MAX_PACKET_LEN (sql.length + 1) - 1)⟩]
  else
    ⟨0, command :: sql.take (min MAX_PACKET_LEN (sql.length + 1) - 1)⟩ ::
      write_frames_loop 1 (sql.drop (min MAX_PACKET_LEN (sql.length + 1) - 1))

/-- The command writer is the payload-level framer applied to the command byte
prepended to the body. -/
theorem execute_command_frames_eq (command : Nat) (sql : List Nat) :
    execute_command_frames command sql = write_frames (command :: sql) := by
  unfold execute_command_frames write_frames
  have hlen : (command :: sql).length = sql.length + 1 := rfl
  rcases Nat.lt_or_ge (sql.length + 1) MAX_PACKET_LEN with hlt | hge
  · have hmin : min MAX_PACKET_LEN (sql.length + 1) = sql.length + 1 :=
      Nat.min_eq_right (Nat.le_of_lt hlt)
    simp [hlen, hmin, Nat.lt_irrefl, hlt, List.take_cons]
  · have hmin : min MAX_PACKET_LEN (sql.length + 1) = MAX_PACKET_LEN :=
      Nat.min_eq_left hge
    have hpos : 0 < MAX_PACKET_LEN := by simp [MAX_PACKET_LEN]
    simp [hlen, hmin, Nat.lt_irrefl]
    obtain ⟨m, hM⟩ := Nat.exists_eq_succ_of_ne_zero (Nat.pos_iff_ne_zero.mp hpos)
    rw [hM]
    simp [List.take_succ_cons, List.drop_succ_cons]

/-- Packet reassembly of `Connection._read_packet` (lines 383-400): read one
frame, append its payload to the buffer, and stop as soon as a frame's payload
length is below `MAX_PACKET_LEN`; running out of frames mid-packet is the
connection-broken error (`None`). -/
def read_packet_bytes : List Frame → Option (List Nat)
  | [] => none
  | f :: fs =>
    if f.payload.length < MAX_PACKET_LEN then some f.payload
    else (read_packet_bytes fs).map (fun rest => f.payload ++ rest)

theorem getLast?_cons_of_ne_nil {α : Type} (a : α) (l : List α) (h : l ≠ []) :
    (a :: l).getLast? = l.getLast? := by
  cases l with
  | nil => exact absurd rfl h
  | cons b l2 => exact List.getLast?_cons_cons

/-- Characterization of the chunking loop on a remainder whose length is an
exact multiple of the maximum frame size: it emits `j + 1` frames (each full
but the final zero-length one), and the reader reassembles them to the exact
remainder. -/
theorem write_frames_loop_mult (j : Nat) :
    ∀ (seq : Nat) (rest : List Nat), rest.length = j * MAX_PACKET_LEN →
      read_packet_bytes (write_frames_loop seq rest) = some rest ∧
      (write_frames_loop seq rest).length = j + 1 ∧
      ((write_frames_loop seq rest).getLast?).map Frame.payload = some [] := by
  induction j with
  | zero =>
    intro seq rest hlen
    have hnil : rest = [] := List.eq_nil_of_length_eq_zero (by omega)
    subst hnil
    rw [write_frames_loop]
    simp [MAX_PACKET_LEN, read_packet_bytes]
  | succ j ih =>
    intro seq rest hlen
    have hge : MAX_PACKET_LEN ≤ rest.length := by
      rw [hlen]
      calc MAX_PACKET_LEN = 1 * MAX_PACKET_LEN := (Nat.one_mul _).symm
        _ ≤ (j + 1) * MAX_PACKET_LEN := Nat.mul_le_mul_right _ (by omega)
    have hmin : min MAX_PACKET_LEN rest.length = MAX_PACKET_LEN :=
      Nat.min_eq_left hge
    have hdrop : (rest.drop MAX_PACKET_LEN).length = j * MAX_PACKET_LEN := by
      rw [List.length_drop, hlen]; ring_nf; omega
    have htake : (rest.take MAX_PACKET_LEN).length = MAX_PACKET_LEN := by
      rw [List.length_take]; exact Nat.min_eq_left hge
    obtain ⟨ih1, ih2, ih3⟩ := ih (seq + 1) (rest.drop MAX_PACKET_LEN) hdrop
    rw [write_frames_loop]
    rw [hmin]
    have hcond : ¬(rest.drop MAX_PACKET_LEN = [] ∧
        MAX_PACKET_LEN < MAX_PACKET_LEN) := by
      rintro ⟨-, hc⟩; exact Nat.lt_irrefl _ hc
    rw [if_neg hcond]
    refine ⟨?_, ?_, ?_⟩
    · rw [read_packet_bytes]
      rw [if_neg (by rw [htake]; exact Nat.lt_irrefl _)]
      rw [ih1]
      simp [List.take_append_drop]
    · simp [ih2]
    · have hne : write_frames_loop (seq + 1) (rest.drop MAX_PACKET_LEN) ≠ [] := by
        intro hc; rw [hc] at ih2; simp at ih2
      rw [getLast?_cons_of_ne_nil _ _ hne]
      exact ih3

/-- C2: for every payload whose length is an exact multiple `k * 0xFFFFFF` of
the maximum frame size (including the empty payload, `k = 0`), framing it with
the command writer and reassembling the emitted frames with the packet reader
reproduces the payload exactly, exactly `k + 1` frames are emitted, and the
last frame is zero-length.  (`write_frames` is the command writer's framing as
a function of the logical payload; see `execute_command_frames_eq`.) -/
theorem framing_round_trip (k : Nat) (payload : List Nat)
    (h : payload.length = k * MAX_PACKET_LEN) :
    read_packet_bytes (write_frames payload) = some payload ∧
    (write_frames payload).length = k + 1 ∧
    ((write_frames payload).getLast?).map Frame.payload = some [] := by
  cases k with
  | zero =>
    have hnil : payload = [] := List.eq_nil_of_length_eq_zero (by omega)
    subst hnil
    rw [write_frames]
    simp [MAX_PACKET_LEN, read_packet_bytes]
  | succ k =>
    have hge : MAX_PACKET_LEN ≤ payload.length := by
      rw [h]
      calc MAX_PACKET_LEN = 1 * MAX_PACKET_LEN := (Nat.one_mul _).symm
        _ ≤ (k + 1) * MAX_PACKET_LEN := Nat.mul_le_mul_right _ (by omega)
    have hmin : min MAX_PACKET_LEN payload.length = MAX_PACKET_LEN :=
      Nat.min_eq_left hge
    have hdrop : (payload.drop MAX_PACKET_LEN).length = k * MAX_PACKET_LEN := by
      rw [List.length_drop, h]; ring_nf; omega
    have htake : (payload.take MAX_PACKET_LEN).length = MAX_PACKET_LEN := by
      rw [List.length_take]; exact Nat.min_eq_left hge
    obtain ⟨ih1, ih2, ih3⟩ :=
      write_frames_loop_mult k 1 (payload.drop MAX_PACKET_LEN) hdrop
    rw [write_frames, hmin]
    rw [if_neg (Nat.lt_irrefl _)]
    refine ⟨?_, ?_, ?_⟩
    · rw [read_packet_bytes]
      rw [if_neg (by rw [htake]; exact Nat.lt_irrefl _)]
      rw [ih1]
      simp [List.take_append_drop]
    · simp [ih2]
    · have hne : write_frames_loop 1 (payload.drop MAX_PACKET_LEN) ≠ [] := by
        intro hc; rw [hc] at ih2; simp at ih2
      rw [getLast?_cons_of_ne_nil _ _ hne]
      exact ih3

/-- Witness for `framing_round_trip` at `k = 0`, the empty payload. -/
theorem framing_round_trip_witness :
    (List.length ([] : List Nat) = 0 * MAX_PACKET_LEN) ∧
    (read_packet_bytes (write_frames []) = some [] ∧
     (write_frames []).length = 0 + 1 ∧
     ((write_frames []).getLast?).map Frame.payload = some []) :=
  ⟨by decide, framing_round_trip 0 [] (by decide)⟩

/-! ## Row value decoding (`MySQLResult._read_row_from_packet`) -/

/-- Character-set metadata returned by the external collaborator
`pymysql.charset.charset_by_id`: its `encoding` name and whether it is the
binary pseudo-charset. -/
structure CharsetInfo where
  encoding : String
  is_binary : Bool
deriving DecidableEq, Repr

/-- A decoded column value: either raw bytes (no text decoding applied) or
text obtained by decoding the raw bytes with a named encoding.  Decoding
itself is an external collaborator (Python `bytes.decode`); the model records
which encoding was applied to which bytes, which is the observable content of
the decoding rule. -/
inductive CellData where
  | bytes (bs : List Nat)
  | text (encoding : String) (bs : List Nat)
deriving DecidableEq, Repr

/-- The two attributes of a `pymysql` `FieldDescriptorPacket` that
`_read_row_from_packet` consults: `type_code` and `charsetnr`. -/
structure FieldModel where
  type_code : Nat
  charsetnr : Nat
deriving DecidableEq, Repr

/-- The connection attributes and external collaborator tables that row
decoding reads: `Connection.use_unicode`, the `pymysql` constant `TEXT_TYPES`,
the charset table `charset_by_id`, and the converter table
`Connection.decoders` (`conv`). -/
structure ConnEnv where
  use_unicode : Bool
  text_types : List Nat
  charset_by_id : Nat → CharsetInfo
  decoders : Nat → Option (CellData → CellData)

/-- Decoding of one column value, embedding the body of the `for field in
self.fields` loop of `MySQLResult._read_row_from_packet` (lines 707-727):
`data is None` (SQL NULL) is appended untouched; otherwise, when
`use_unicode` holds, a `TEXT_TYPES` column with a non-binary charset is
decoded with that charset's encoding, a `TEXT_TYPES` column with the binary
pseudo-charset stays raw bytes, and any other column type is decoded with
`bytes.decode()`'s default encoding, UTF-8; finally a converter found in
`decoders` for the type code is applied. -/
def read_cell (env : ConnEnv) (field : FieldModel) (data : Option (List Nat)) :
    Option CellData :=
  match data with
  | none => none
  | some bs =>
    let d0 : CellData :=
      if env.use_unicode then
        if field.type_code ∈ env.text_types then
          if env.use_unicode && !(env.charset_by_id field.charsetnr).is_binary then
            CellData.text (env.charset_by_id field.charsetnr).encoding bs
          else CellData.bytes bs
        else CellData.text "utf-8" bs
      else CellData.bytes bs
    match env.decoders field.type_code with
    | some conv => some (conv d0)
    | none => some d0

/-- Modelled from the spec (section 4.4 row decoding rule), for refinement
comparison with `read_cell`: a textual-type column with a non-binary charset
is decoded with that charset's encoding, a column of any other type is decoded
as text with the connection's default encoding, and SQL NULL is never passed
through a converter. -/
def read_cell_spec (env : ConnEnv) (conn_encoding : String) (field : FieldModel)
    (data : Option (List Nat)) : Option CellData :=
  match data with
  | none => none
  | some bs =>
    let d0 : CellData :=
      if field.type_code ∈ env.text_types &&
          !(env.charset_by_id field.charsetnr).is_binary then
        CellData.text (env.charset_by_id field.charsetnr).encoding bs
      else CellData.text conn_encoding bs
    match env.decoders field.type_code with
    | some conv => some (conv d0)
    | none => some d0

/-- Statement of the amended C5 decoding rule: when `use_unicode` is unset the
raw bytes are passed through undecoded; when it is set, textual types with the
binary pseudo-charset stay raw bytes, textual types with any other charset are
decoded with that charset's encoding, and every other type is decoded as
UTF-8 (the default of `bytes.decode()`), regardless of the connection's
configured encoding; a SQL NULL is never passed through a converter. -/
def read_cell_amended (env : ConnEnv) (field : FieldModel)
    (data : Option (List Nat)) : Option CellData :=
  match data with
  | none => none
  | some bs =>
    let d0 : CellData :=
      if env.use_unicode = false then CellData.bytes bs
      else if field.type_code ∈ env.text_types then
        (if (env.charset_by_id field.charsetnr).is_binary then CellData.bytes bs
         else CellData.text (env.charset_by_id field.charsetnr).encoding bs)
      else CellData.text "utf-8" bs
    match env.decoders field.type_code with
    | some conv => some (conv d0)
    | none => some d0

/-- Concrete environment for the C5 counterexample: unicode mode on, the
standard `pymysql` `TEXT_TYPES` set, every charset id mapping to latin1
(non-binary), and an empty converter table. -/
def envC5 : ConnEnv :=
  { use_unicode := true,
    text_types := [15, 16, 249, 250, 251, 252, 253, 254, 255],
    charset_by_id := fun _ => { encoding := "latin1", is_binary := false },
    decoders := fun _ => none }

/-- Concrete environment for the C5 counterexample with unicode mode off. -/
def envC5off : ConnEnv :=
  { use_unicode := false,
    text_types := [15, 16, 249, 250, 251, 252, 253, 254, 255],
    charset_by_id := fun _ => { encoding := "latin1", is_binary := false },
    decoders := fun _ => none }

/-- C5 counterexample: on a connection whose configured encoding is latin1,
a non-textual column (type code 3, `LONG`) is decoded by the code with UTF-8
(`bytes.decode()` with no argument), not with the connection's encoding as the
claim states; and with `use_unicode` unset the code does not decode at all,
while the claimed rule still produces text. -/
theorem row_decode_encoding_mismatch :
    read_cell envC5 ⟨3, 8⟩ (some [49]) = some (CellData.text "utf-8" [49]) ∧
    read_cell_spec envC5 "latin1" ⟨3, 8⟩ (some [49])
      = some (CellData.text "latin1" [49]) ∧
    read_cell envC5 ⟨3, 8⟩ (some [49])
      ≠ read_cell_spec envC5 "latin1" ⟨3, 8⟩ (some [49]) ∧
    read_cell envC5off ⟨3, 8⟩ (some [49]) = some (CellData.bytes [49]) ∧
    read_cell envC5off ⟨3, 8⟩ (some [49])
      ≠ read_cell_spec envC5off "latin1" ⟨3, 8⟩ (some [49]) := by
  refine ⟨rfl, rfl, ?_, rfl, ?_⟩ <;> decide

/-- C5 (amended): the decoding rule actually implemented is
`read_cell_amended` — charset-encoding decode for non-binary textual types,
UTF-8 (not the connection encoding) for all other types, both only when
`use_unicode` is set, raw bytes otherwise, and SQL NULL bypasses conversion. -/
theorem read_cell_decoding_rule (env : ConnEnv) (field : FieldModel)
    (data : Option (List Nat)) :
    read_cell env field data = read_cell_amended env field data ∧
    read_cell env field none = none := by
  refine ⟨?_, rfl⟩
  cases data with
  | none => rfl
  | some bs =>
    unfold read_cell read_cell_amended
    cases hu : env.use_unicode <;>
      cases ht : decide (field.type_code ∈ env.text_types) <;>
        cases hb : (env.charset_by_id field.charsetnr).is_binary <;>
          simp_all

/-! ## Result sets (`MySQLResult`) -/

/-- Abstract view of a logical packet as delivered by `Connection._read_packet`
and inspected through the `pymysql` packet interface (an external
collaborator): the `is_ok_packet` / `is_eof_packet` / error discriminators,
the leading length-encoded integer (column count) of a result header, the
successive `read_length_coded_string()` values of a row packet (one `none` per
SQL NULL), the parse of the packet as a `FieldDescriptorPacket`, and the
fields exposed by `OKPacketWrapper` / `EOFPacketWrapper`. -/
structure MyPacket where
  is_error : Bool
  is_ok : Bool
  is_eof : Bool
  colCount : Nat
  cells : List (Option (List Nat))
  fieldDesc : FieldModel
  eof_warning_count : Nat
  eof_has_next : Bool
  ok_affected_rows : Nat
  ok_insert_id : Nat
  ok_server_status : Nat
  ok_warning_count : Nat
  ok_message : List Nat
  ok_has_next : Bool
deriving DecidableEq, Repr

/-- A decoded row, as appended by `_read_row_from_packet`. -/
abbrev RowData := List (Option CellData)

/-- The mutable state of a `MySQLResult` object.  `connection` is `true` while
the back-reference to the owning `Connection` is set and `false` once cleared
(`self.connection = None`); `fields` is `none` while the attribute has not yet
been assigned by `_get_descriptions` (accessing it then is an
`AttributeError`); the `Option` fields that start as Python `None` are
`none`. -/
structure ResultState where
  connection : Bool
  affected_rows : Option Nat
  insert_id : Option Nat
  server_status : Option Nat
  warning_count : Nat
  message : Option (List Nat)
  field_count : Nat
  description : Option (List FieldModel)
  rows : Option (List RowData)
  has_next : Option Bool
  unbuffered_active : Bool
  fields : Option (List FieldModel)
deriving DecidableEq, Repr

/-- State of a fresh `MySQLResult(connection)` (`__init__`, lines 590-601). -/
def initial_result : ResultState :=
  { connection := true, affected_rows := none, insert_id := none,
    server_status := none, warning_count := 0, message := none,
    field_count := 0, description := none, rows := none, has_next := none,
    unbuffered_active := false, fields := none }

/-- State mutation performed by `MySQLResult._read_ok_packet` (lines 634-641),
copying the `OKPacketWrapper` fields onto the result. -/
def read_ok_packet_result (st : ResultState) (p : MyPacket) : ResultState :=
  { st with
    affected_rows := some p.ok_affected_rows,
    insert_id := some p.ok_insert_id,
    server_status := some p.ok_server_status,
    warning_count := p.ok_warning_count,
    message := some p.ok_message,
    has_next := some p.ok_has_next }

/-- State mutation performed by `MySQLResult._check_packet_is_eof` when the
packet is an EOF marker (lines 643-648): the `EOFPacketWrapper`'s warning
count and has-next flag are captured. -/
def apply_eof_wrapper (st : ResultState) (p : MyPacket) : ResultState :=
  { st with
    warning_count := p.eof_warning_count,
    has_next := some p.eof_has_next }

/-- Row decoding of `MySQLResult._read_row_from_packet` (lines 703-728): one
`read_length_coded_string()` per field, each decoded by `read_cell`. -/
def read_row_from_packet (env : ConnEnv) :
    List FieldModel → List (Option (List Nat)) → RowData
  | [], _ => []
  | f :: fs, cells =>
    read_cell env f (cells.headD none) :: read_row_from_packet env fs cells.tail

/-- Row of a row packet, given the result's parsed field descriptors. -/
def row_of (env : ConnEnv) (fs : List FieldModel) (p : MyPacket) : RowData :=
  read_row_from_packet env fs p.cells

/-- The `while True` row loop of `MySQLResult._read_rowdata_packet` (lines
689-701): read a packet through the connection back-reference (`none` models
the `AttributeError`/broken-transport failures: cleared back-reference, error
packet, or exhausted input); on the EOF marker capture its fields, clear the
back-reference and finish with `affected_rows = len(rows)` and the
accumulated row tuple; otherwise decode one row via `self.fields` (unset
`fields` is an `AttributeError`) and continue. -/
def read_rowdata_packet_loop (env : ConnEnv) (st : ResultState)
    (acc : List RowData) : List MyPacket → Option (ResultState × List MyPacket)
  | [] => none
  | p :: ps =>
    if st.connection = false then none
    else if p.is_error then none
    else if p.is_eof then
      some ({ (apply_eof_wrapper st p) with
              connection := false,
              affected_rows := some acc.length, rows := some acc }, ps)
    else
      match st.fields with
      | none => none
      | some fs =>
        read_rowdata_packet_loop env st (acc ++ [row_of env fs p]) ps

/-- `MySQLResult._read_rowdata_packet` (buffered mode). -/
def read_rowdata_packet (env : ConnEnv) (st : ResultState)
    (packets : List MyPacket) : Option (ResultState × List MyPacket) :=
  read_rowdata_packet_loop env st [] packets

/-- `MySQLResult._get_descriptions` (lines 730-743): read `field_count`
field-descriptor packets, then one packet that is asserted to be the EOF
marker. -/
def get_descriptions_fields :
    Nat → List MyPacket → Option (List FieldModel × List MyPacket)
  | 0, ps => some ([], ps)
  | _ + 1, [] => none
  | n + 1, p :: ps =>
    if p.is_error then none
    else (get_descriptions_fields n ps).map (fun x => (p.fieldDesc :: x.1, x.2))

/-- `MySQLResult._get_descriptions` state effect: `fields` and `description`
are assigned (the per-field `description()` tuples are an external
collaborator; the model keeps the parsed descriptors). -/
def get_descriptions (st : ResultState) (packets : List MyPacket) :
    Option (ResultState × List MyPacket) :=
  if st.connection = false then none
  else
    match get_descriptions_fields st.field_count packets with
    | none => none
    | some (fs, rest) =>
      match rest with
      | [] => none
      | e :: rest2 =>
        if e.is_error then none
        else if e.is_eof then
          some ({ st with fields := some fs, description := some fs }, rest2)
        else none

/-- `MySQLResult._read_result_packet` (lines 651-655): take the column count
from the first packet, read the descriptors, then the buffered row data. -/
def read_result_packet (env : ConnEnv) (st : ResultState) (first : MyPacket)
    (ps : List MyPacket) : Option (ResultState × List MyPacket) :=
  match get_descriptions { st with field_count := first.colCount } ps with
  | none => none
  | some (st2, ps2) => read_rowdata_packet env st2 ps2

/-- `MySQLResult.read` (lines 603-614), the buffered read: classify the first
packet as OK or result set, and finally clear the connection back-reference. -/
def result_read (env : ConnEnv) (st : ResultState) (packets : List MyPacket) :
    Option (ResultState × List MyPacket) :=
  if st.connection = false then none
  else
    match packets with
    | [] => none
    | p :: ps =>
      let step :=
        if p.is_error then none
        else if p.is_ok then some (read_ok_packet_result st p, ps)
        else read_result_packet env st p ps
      step.map (fun x => ({ x.1 with connection := false }, x.2))

/-- `MySQLResult.init_unbuffered_query` (lines 616-632): set the active flag,
read the first packet; an OK packet finishes the result immediately;
otherwise take the column count and set the 64-bit sentinel affected-row
count.  At line 627 `self._get_descriptions()` is called without `yield from`,
so the coroutine object is created and discarded: no descriptor packet is
consumed and the `fields` attribute is never assigned. -/
def init_unbuffered_query (st : ResultState) (packets : List MyPacket) :
    Option (ResultState × List MyPacket) :=
  if st.connection = false then none
  else
    match packets with
    | [] => none
    | p :: ps =>
      if p.is_error then none
      else if p.is_ok then
        some ({ (read_ok_packet_result { st with unbuffered_active := true } p) with
                unbuffered_active := false, connection := false }, ps)
      else
        some ({ st with
                unbuffered_active := true,
                field_count := p.colCount,
                affected_rows := some 18446744073709551615 }, ps)

/-- `MySQLResult._read_rowdata_packet_unbuffered` (lines 658-674), one
streaming pull: an inactive result returns immediately with no read and no
state change; otherwise read one packet — the EOF marker deactivates the
result, clears the back-reference and `rows`; a row packet is decoded via
`self.fields` (unset `fields` is an `AttributeError`), `affected_rows`
becomes 1 and `rows` the one-row tuple. -/
def read_rowdata_packet_unbuffered (env : ConnEnv) (st : ResultState)
    (packets : List MyPacket) :
    Option (Option RowData × ResultState × List MyPacket) :=
  if st.unbuffered_active = false then some (none, st, packets)
  else if st.connection = false then none
  else
    match packets with
    | [] => none
    | p :: ps =>
      if p.is_error then none
      else if p.is_eof then
        some (none, { (apply_eof_wrapper st p) with
                      unbuffered_active := false,
                      connection := false, rows := none }, ps)
      else
        match st.fields with
        | none => none
        | some fs =>
          some (some (row_of env fs p),
                { st with
                  affected_rows := some 1,
                  rows := some [row_of env fs p] }, ps)

/-- Repeated single-row pulls until a pull reports end-of-rows (the streaming
consumption idiom of the claim); `fuel` bounds the iteration and is immaterial
whenever it exceeds the number of pulls. -/
def pull_all (env : ConnEnv) :
    Nat → ResultState → List MyPacket →
      Option (List RowData × ResultState × List MyPacket)
  | 0, _, _ => none
  | fuel + 1, st, packets =>
    match read_rowdata_packet_unbuffered env st packets with
    | none => none
    | some (none, st2, ps2) => some ([], st2, ps2)
    | some (some row, st2, ps2) =>
      (pull_all env fuel st2 ps2).map (fun x => (row :: x.1, x.2.1, x.2.2))

/-- Full streaming-mode consumption: `init_unbuffered_query` followed by
repeated pulls to end-of-rows. -/
def streaming_consume (env : ConnEnv) (fuel : Nat) (st : ResultState)
    (packets : List MyPacket) :
    Option (List RowData × ResultState × List MyPacket) :=
  match init_unbuffered_query st packets with
  | none => none
  | some (st1, ps1) => pull_all env fuel st1 ps1

/-- `MySQLResult._finish_unbuffered_query` (lines 676-686): while the result
is active, read and discard packets until the EOF marker, then clear the
active flag and the connection back-reference.  Returns the final result
state, the consumed packets, and the remaining input. -/
def finish_unbuffered_query (st : ResultState) :
    List MyPacket → Option (ResultState × List MyPacket × List MyPacket)
  | [] => if st.unbuffered_active = false then some (st, [], []) else none
  | p :: ps =>
    if st.unbuffered_active = false then some (st, [], p :: ps)
    else if st.connection = false then none
    else if p.is_error then none
    else if p.is_eof then
      some ({ (apply_eof_wrapper st p) with
              unbuffered_active := false,
              connection := false }, [p], ps)
    else
      (finish_unbuffered_query st ps).map
        (fun x => (x.1, p :: x.2.1, x.2.2))

/-! ## Concrete packets and environments used by witnesses -/

/-- A packet with all observable fields zeroed; concrete packets below
override the relevant discriminator or content. -/
def basePacket : MyPacket :=
  { is_error := false, is_ok := false, is_eof := false, colCount := 0,
    cells := [], fieldDesc := ⟨0, 0⟩, eof_warning_count := 0,
    eof_has_next := false, ok_affected_rows := 0, ok_insert_id := 0,
    ok_server_status := 0, ok_warning_count := 0, ok_message := [],
    ok_has_next := false }

/-- Result-set header packet whose leading length-encoded integer is `n`. -/
def colCountPacket (n : Nat) : MyPacket := { basePacket with colCount := n }

/-- Field-descriptor packet parsing to the descriptor `f`. -/
def descPacket (f : FieldModel) : MyPacket := { basePacket with fieldDesc := f }

/-- EOF marker packet. -/
def eofPacket : MyPacket := { basePacket with is_eof := true }

/-- Row packet whose successive length-coded strings are `cs`. -/
def rowPacket (cs : List (Option (List Nat))) : MyPacket :=
  { basePacket with cells := cs }

/-- Connection environment with unicode off and no converters. -/
def envTrivial : ConnEnv :=
  { use_unicode := false, text_types := [],
    charset_by_id := fun _ => { encoding := "latin1", is_binary := false },
    decoders := fun _ => none }

/-! ## C10: a pull on an inactive streaming result is a no-op -/

/-- C10: for every streaming result whose `unbuffered_active` flag is false, a
single-row pull reads no packet, returns no row, and leaves the result state
(and hence everything it references) unchanged. -/
theorem pull_inactive_noop (env : ConnEnv) (st : ResultState)
    (packets : List MyPacket) (h : st.unbuffered_active = false) :
    read_rowdata_packet_unbuffered env st packets = some (none, st, packets) := by
  unfold read_rowdata_packet_unbuffered
  simp [h]

/-- Witness for `pull_inactive_noop`: a fresh result is inactive and a pull
leaves it and the input untouched. -/
theorem pull_inactive_noop_witness :
    initial_result.unbuffered_active = false ∧
    read_rowdata_packet_unbuffered envTrivial initial_result
        [rowPacket [some [49]]]
      = some (none, initial_result, [rowPacket [some [49]]]) :=
  ⟨rfl, pull_inactive_noop envTrivial initial_result [rowPacket [some [49]]] rfl⟩

/-! ## C8: the streaming sentinel affected-row count -/

/-- C8 (code bug): on a streaming result whose first packet is a column
count, `init_unbuffered_query` does set the 64-bit sentinel affected-row
count before any row is pulled, but — because line 627 calls
`self._get_descriptions()` without `yield from` — the field descriptors and
their terminating EOF marker are NOT read (they remain in the input) and the
`fields` attribute is never assigned, contradicting the claim's "immediately
after the field descriptors and their terminating EOF marker are read". -/
theorem init_unbuffered_sentinel_without_descriptions :
    init_unbuffered_query initial_result
        [colCountPacket 1, descPacket ⟨253, 33⟩, eofPacket]
      = some ({ initial_result with
                unbuffered_active := true, field_count := 1,
                affected_rows := some 18446744073709551615 },
              [descPacket ⟨253, 33⟩, eofPacket]) ∧
    ({ initial_result with
       unbuffered_active := true, field_count := 1,
       affected_rows := some 18446744073709551615 } : ResultState).fields
      = none :=
  ⟨rfl, rfl⟩

/-! ## C1: streaming vs. buffered consumption -/

/-- Delivery of a one-column, one-row result set: column count, one field
descriptor, the descriptor-terminating EOF, one row, the row-terminating
EOF. -/
def deliveryC1 : List MyPacket :=
  [colCountPacket 1, descPacket ⟨253, 33⟩, eofPacket,
   rowPacket [some [49]], eofPacket]

/-- C1 counterexample: on the one-row result set `deliveryC1`, the buffered
reader returns the row `["1"]` with affected-row count 1, while full
streaming consumption (`init_unbuffered_query` followed by single-row pulls)
fails before producing any row: the missing `yield from` at line 627 leaves
the descriptor packets unconsumed and the `fields` attribute unset, so the
first pull misreads the descriptor packet as a row and hits an
`AttributeError`.  The two modes therefore do not yield the same ordered row
sequence, and their affected-row counts (1 versus the untouched 2^64-1
sentinel) also differ. -/
theorem streaming_buffered_differ :
    (result_read envTrivial initial_result deliveryC1).map
        (fun x => (x.1.rows, x.1.affected_rows))
      = some (some [[some (CellData.bytes [49])]], some 1) ∧
    streaming_consume envTrivial 8 initial_result deliveryC1 = none :=
  ⟨rfl, rfl⟩

/-- Buffered start state of the pull-level comparison: a result whose parsed
descriptors are `fs` (as `_read_result_packet` leaves them before
`_read_rowdata_packet` runs). -/
def buffered_start (fs : List FieldModel) : ResultState :=
  { initial_result with fields := some fs }

/-- Streaming start state of the pull-level comparison: an active result with
descriptors `fs` and the post-header sentinel affected-row count (the state
`init_unbuffered_query` would reach had its `_get_descriptions` call been
awaited). -/
def streaming_start (fs : List FieldModel) : ResultState :=
  { initial_result with
    fields := some fs, unbuffered_active := true,
    affected_rows := some 18446744073709551615 }

/-- Final state of a fully drained streaming result that pulled `pulled`
rows before the EOF marker `e`. -/
def streaming_final (st : ResultState) (e : MyPacket) (pulled : Nat) :
    ResultState :=
  { st with
    affected_rows := if pulled = 0 then st.affected_rows else some 1,
    warning_count := e.eof_warning_count,
    has_next := some e.eof_has_next,
    unbuffered_active := false, connection := false, rows := none }

/-- The buffered row loop on row packets `rps` followed by the EOF marker
`e`: it decodes each row in order, sets `affected_rows` to the number of rows
and clears the back-reference. -/
theorem read_rowdata_loop_spec (env : ConnEnv) (fs : List FieldModel)
    (e : MyPacket) (rest : List MyPacket)
    (he : e.is_eof = true) (hee : e.is_error = false) :
    ∀ (rps : List MyPacket) (st : ResultState) (acc : List RowData),
      st.connection = true → st.fields = some fs →
      (∀ p ∈ rps, p.is_error = false ∧ p.is_eof = false) →
      read_rowdata_packet_loop env st acc (rps ++ e :: rest)
        = some ({ (apply_eof_wrapper st e) with
                  connection := false,
                  affected_rows := some (acc ++ rps.map (row_of env fs)).length,
                  rows := some (acc ++ rps.map (row_of env fs)) }, rest) := by
  intro rps
  induction rps with
  | nil =>
    intro st acc hc hf hr
    rw [List.nil_append]
    unfold read_rowdata_packet_loop
    simp [hc, hee, he]
  | cons p rps ih =>
    intro st acc hc hf hr
    obtain ⟨hpe, hpf⟩ := hr p (List.mem_cons_self p rps)
    rw [List.cons_append]
    unfold read_rowdata_packet_loop
    simp only [hc, hpe, hpf, hf, if_neg, if_pos]
    rw [if_neg (by simp [hc])]
    rw [if_neg (by simp [hpe])]
    rw [if_neg (by simp [hpf])]
    rw [ih st (acc ++ [row_of env fs p]) hc hf
      (fun q hq => hr q (List.mem_cons_of_mem p hq))]
    simp [List.append_assoc]

/-- Repeated streaming pulls on row packets `rps` followed by the EOF marker
`e`, starting from an active result with descriptors `fs`: the pulls yield
exactly the decoded rows in order, and the final state is the drained state
whose affected-row count is 1 when at least one row was pulled and the
starting value otherwise. -/
theorem pull_all_spec (env : ConnEnv) (fs : List FieldModel)
    (e : MyPacket) (rest : List MyPacket)
    (he : e.is_eof = true) (hee : e.is_error = false) :
    ∀ (rps : List MyPacket) (st : ResultState) (fuel : Nat),
      st.unbuffered_active = true → st.connection = true →
      st.fields = some fs →
      (∀ p ∈ rps, p.is_error = false ∧ p.is_eof = false) →
      rps.length < fuel →
      pull_all env fuel st (rps ++ e :: rest)
        = some (rps.map (row_of env fs), streaming_final st e rps.length,
                rest) := by
  intro rps
  induction rps with
  | nil =>
    intro st fuel ha hc hf hr hfuel
    obtain ⟨f, rfl⟩ := Nat.exists_eq_succ_of_ne_zero (by omega : fuel ≠ 0)
    rw [List.nil_append]
    unfold pull_all read_rowdata_packet_unbuffered
    simp [ha, hc, hee, he, streaming_final, apply_eof_wrapper]
  | cons p rps ih =>
    intro st fuel ha hc hf hr hfuel
    obtain ⟨f, rfl⟩ := Nat.exists_eq_succ_of_ne_zero (by omega : fuel ≠ 0)
    obtain ⟨hpe, hpf⟩ := hr p (List.mem_cons_self p rps)
    rw [List.cons_append]
    have hpull : read_rowdata_packet_unbuffered env st (p :: (rps ++ e :: rest))
        = some (some (row_of env fs p),
                { st with
                  affected_rows := some 1,
                  rows := some [row_of env fs p] }, rps ++ e :: rest) := by
      unfold read_rowdata_packet_unbuffered
      simp [ha, hc, hpe, hpf, hf]
    unfold pull_all
    rw [hpull]
    simp only
    rw [ih { st with affected_rows := some 1, rows := some [row_of env fs p] }
      f ha hc hf (fun q hq => hr q (List.mem_cons_of_mem p hq))
      (by simp at hfuel ⊢; omega)]
    simp [streaming_final]

/-- C1 (amended): pull-level equivalence.  Given the same field descriptors
and the same row packets followed by the same EOF marker, the buffered reader
and repeated streaming pulls (started from an active result holding those
descriptors) produce the identical ordered sequence of decoded rows; the
final affected-row counts however differ: the buffered result reports the
number of rows, while the drained streaming result reports 1 when at least
one row was pulled and keeps the 2^64-1 sentinel otherwise. -/
theorem streaming_buffered_pull_equivalence (env : ConnEnv)
    (fs : List FieldModel) (rps : List MyPacket) (e : MyPacket)
    (rest : List MyPacket)
    (hr : ∀ p ∈ rps, p.is_error = false ∧ p.is_eof = false)
    (he : e.is_eof = true) (hee : e.is_error = false) :
    read_rowdata_packet env (buffered_start fs) (rps ++ e :: rest)
      = some ({ (apply_eof_wrapper (buffered_start fs) e) with
                connection := false,
                affected_rows := some rps.length,
                rows := some (rps.map (row_of env fs)) }, rest) ∧
    pull_all env (rps.length + 1) (streaming_start fs) (rps ++ e :: rest)
      = some (rps.map (row_of env fs),
              streaming_final (streaming_start fs) e rps.length, rest) ∧
    (streaming_final (streaming_start fs) e rps.length).affected_rows
      = (if rps.length = 0 then some 18446744073709551615 else some 1) := by
  refine ⟨?_, ?_, ?_⟩
  · have hb := read_rowdata_loop_spec env fs e rest he hee rps
      (buffered_start fs) [] rfl rfl hr
    unfold read_rowdata_packet
    rw [hb]
    simp
  · exact pull_all_spec env fs e rest he hee rps (streaming_start fs)
      (rps.length + 1) rfl rfl rfl hr (by omega)
  · simp only [streaming_final, streaming_start]

/-- Witness for `streaming_buffered_pull_equivalence` on a two-row result
set with one textual column. -/
theorem streaming_buffered_pull_equivalence_witness :
    (∀ p ∈ [rowPacket [some [49]], rowPacket [some [50]]],
        p.is_error = false ∧ p.is_eof = false) ∧
    eofPacket.is_eof = true ∧ eofPacket.is_error = false ∧
    (read_rowdata_packet envTrivial (buffered_start [⟨253, 33⟩])
        ([rowPacket [some [49]], rowPacket [some [50]]] ++ eofPacket :: [])
      = some ({ (apply_eof_wrapper (buffered_start [⟨253, 33⟩]) eofPacket) with
                connection := false,
                affected_rows :=
                  some (List.length [rowPacket [some [49]],
                    rowPacket [some [50]]]),
                rows := some ([rowPacket [some [49]],
                  rowPacket [some [50]]].map
                    (row_of envTrivial [⟨253, 33⟩])) }, []) ∧
     pull_all envTrivial
        (List.length [rowPacket [some [49]], rowPacket [some [50]]] + 1)
        (streaming_start [⟨253, 33⟩])
        ([rowPacket [some [49]], rowPacket [some [50]]] ++ eofPacket :: [])
      = some ([rowPacket [some [49]], rowPacket [some [50]]].map
                (row_of envTrivial [⟨253, 33⟩]),
              streaming_final (streaming_start [⟨253, 33⟩]) eofPacket
                (List.length [rowPacket [some [49]],
                  rowPacket [some [50]]]), []) ∧
     (streaming_final (streaming_start [⟨253, 33⟩]) eofPacket
        (List.length [rowPacket [some [49]],
          rowPacket [some [50]]])).affected_rows
      = (if List.length [rowPacket [some [49]], rowPacket [some [50]]] = 0
         then some 18446744073709551615 else some 1)) :=
  ⟨by decide, rfl, rfl,
   streaming_buffered_pull_equivalence envTrivial [⟨253, 33⟩]
     [rowPacket [some [49]], rowPacket [some [50]]] eofPacket []
     (by decide) rfl rfl⟩

/-! ## C3: command dispatch drains a pending streaming result first -/

/-- The `Connection` attributes that `_execute_command` consults: whether the
transport writer is open (`self._writer`), and the current in-flight result
(`self._result`). -/
structure ConnState where
  writerOpen : Bool
  result : Option ResultState
deriving DecidableEq, Repr

/-- Observable transport events of `_execute_command`: packets read while
draining, and frames written for the new command. -/
inductive CmdEvent where
  | readPkt (p : MyPacket)
  | writeFrame (f : Frame)
deriving DecidableEq, Repr

/-- `Connection._execute_command` (lines 436-467): fail if the writer is
closed; if the last result is a streaming result still active, run
`_finish_unbuffered_query` on it first; then write the command frames.
Returns the new connection state, the ordered transport events (drain reads
followed by command-frame writes), and the unconsumed input packets. -/
def execute_command (cs : ConnState) (command : Nat) (sql : List Nat)
    (packets : List MyPacket) :
    Option (ConnState × List CmdEvent × List MyPacket) :=
  if cs.writerOpen = false then none
  else
    let drained : Option (Option ResultState × List MyPacket × List MyPacket) :=
      match cs.result with
      | some r =>
        if r.unbuffered_active then
          (finish_unbuffered_query r packets).map
            (fun x => (some x.1, x.2.1, x.2.2))
        else some (some r, [], packets)
      | none => some (none, [], packets)
    drained.map (fun x =>
      ({ cs with result := x.1 },
       x.2.1.map CmdEvent.readPkt
         ++ (execute_command_frames command sql).map CmdEvent.writeFrame,
       x.2.2))

/-- `_finish_unbuffered_query` on an active result consumes exactly the
pending packets up to and including the first EOF marker, clears the active
flag and the connection back-reference, and touches nothing else. -/
theorem finish_unbuffered_spec (e : MyPacket) (rest : List MyPacket)
    (he : e.is_eof = true) (hee : e.is_error = false) :
    ∀ (junk : List MyPacket) (r : ResultState),
      r.unbuffered_active = true → r.connection = true →
      (∀ p ∈ junk, p.is_error = false ∧ p.is_eof = false) →
      finish_unbuffered_query r (junk ++ e :: rest)
        = some ({ (apply_eof_wrapper r e) with
                  unbuffered_active := false, connection := false },
                junk ++ [e], rest) := by
  intro junk
  induction junk with
  | nil =>
    intro r ha hc hj
    rw [List.nil_append]
    unfold finish_unbuffered_query
    simp [ha, hc, hee, he]
  | cons p junk ih =>
    intro r ha hc hj
    obtain ⟨hpe, hpf⟩ := hj p (List.mem_cons_self p junk)
    rw [List.cons_append]
    unfold finish_unbuffered_query
    rw [if_neg (by simp [ha])]
    rw [if_neg (by simp [hc])]
    rw [if_neg (by simp [hpe])]
    rw [if_neg (by simp [hpf])]
    rw [ih r ha hc (fun q hq => hj q (List.mem_cons_of_mem p hq))]
    rfl

/-- C3: issuing a command while the connection's current result is a
streaming result with `unbuffered_active` true first reads packets up to the
EOF marker of that result (clearing its active flag and its back-reference)
and only then writes the new command's frames: all read events precede all
write events, and the command frames are written against a state whose
result is drained. -/
theorem execute_command_drains_before_write (cs : ConnState)
    (r : ResultState) (command : Nat) (sql : List Nat)
    (junk : List MyPacket) (e : MyPacket) (rest : List MyPacket)
    (hw : cs.writerOpen = true) (hres : cs.result = some r)
    (ha : r.unbuffered_active = true) (hc : r.connection = true)
    (hj : ∀ p ∈ junk, p.is_error = false ∧ p.is_eof = false)
    (he : e.is_eof = true) (hee : e.is_error = false) :
    execute_command cs command sql (junk ++ e :: rest)
      = some ({ cs with
                result := some ({ (apply_eof_wrapper r e) with
                  unbuffered_active := false, connection := false }) },
              ((junk ++ [e]).map CmdEvent.readPkt)
                ++ (execute_command_frames command sql).map CmdEvent.writeFrame,
              rest) ∧
    ({ (apply_eof_wrapper r e) with
       unbuffered_active := false,
       connection := false } : ResultState).unbuffered_active = false ∧
    ({ (apply_eof_wrapper r e) with
       unbuffered_active := false,
       connection := false } : ResultState).connection = false := by
  refine ⟨?_, rfl, rfl⟩
  have hdr := finish_unbuffered_spec e rest he hee junk r ha hc hj
  simp [execute_command, hw, hres, ha, hdr]

/-- Witness for `execute_command_drains_before_write`: a PING command (code
0x0E) issued while a streaming result is active, with one pending row packet
before the EOF marker. -/
theorem execute_command_drains_before_write_witness :
    (ConnState.mk true (some (streaming_start [⟨253, 33⟩]))).writerOpen
        = true ∧
    (ConnState.mk true (some (streaming_start [⟨253, 33⟩]))).result
        = some (streaming_start [⟨253, 33⟩]) ∧
    (streaming_start [⟨253, 33⟩]).unbuffered_active = true ∧
    (streaming_start [⟨253, 33⟩]).connection = true ∧
    (∀ p ∈ [rowPacket [some [49]]], p.is_error = false ∧ p.is_eof = false) ∧
    eofPacket.is_eof = true ∧ eofPacket.is_error = false ∧
    (execute_command (ConnState.mk true (some (streaming_start [⟨253, 33⟩])))
        14 [] ([rowPacket [some [49]]] ++ eofPacket :: [])
      = some ({ (ConnState.mk true (some (streaming_start [⟨253, 33⟩]))) with
                result := some ({ (apply_eof_wrapper
                    (streaming_start [⟨253, 33⟩]) eofPacket) with
                  unbuffered_active := false, connection := false }) },
              (([rowPacket [some [49]]] ++ [eofPacket]).map CmdEvent.readPkt)
                ++ (execute_command_frames 14 []).map CmdEvent.writeFrame,
              []) ∧
     ({ (apply_eof_wrapper (streaming_start [⟨253, 33⟩]) eofPacket) with
        unbuffered_active := false,
        connection := false } : ResultState).unbuffered_active = false ∧
     ({ (apply_eof_wrapper (streaming_start [⟨253, 33⟩]) eofPacket) with
        unbuffered_active := false,
        connection := false } : ResultState).connection = false) :=
  ⟨rfl, rfl, rfl, rfl, by decide, rfl, rfl,
   execute_command_drains_before_write
     (ConnState.mk true (some (streaming_start [⟨253, 33⟩])))
     (streaming_start [⟨253, 33⟩]) 14 [] [rowPacket [some [49]]] eofPacket []
     rfl rfl rfl rfl (by decide) rfl rfl⟩

/-! ## C4: handshake greeting parsing (`Connection._get_server_information`) -/

/-- Little-endian integer value of a byte list (`struct.unpack` of `<I`/`<H`
on an exact-length slice). -/
def le_int : List Nat → Nat
  | [] => 0
  | b :: bs => b + 256 * le_int bs

/-- The attributes that `_get_server_information` assigns on the connection
(`HandshakeInfo` in the specification).  `server_language` and
`server_status` are `none` when the extended capability block is absent;
the charset-name lookup `charset_by_id(lang).name` is an external
collaborator and is not stored. -/
structure ServerInfo where
  protocol_version : Nat
  server_version : String
  server_thread_id : Nat
  salt : List Nat
  server_capabilities : Nat
  server_language : Option Nat
  server_status : Option Nat
deriving DecidableEq, Repr

/-- `Connection._get_server_information` (lines 527-567), with Python slices
rendered as `drop`/`take` and the running index `i` tracked explicitly:
protocol-version byte; version string up to the NUL terminator (the
terminator-less malformed case, where Python's `find` returns -1, is not
modelled); 4-byte thread id; 8 salt bytes plus filler; 2-byte low capability
word; then, only when at least 6 bytes remain, the extended block (charset
byte, 2-byte status, 2-byte high capability word merged via `<< 16`, salt
length byte); 10 reserved bytes; and the second salt part of
`max(12, salt_len - 9)` bytes when present.  When the extended block is
absent the local `salt_len` is never assigned, and the final
`len(data) >= i + salt_len` comparison at line 564 raises
`UnboundLocalError`: that path returns `none`. -/
def get_server_information (data : List Nat) : Option ServerInfo :=
  match data.head? with
  | none => none
  | some protocol_version =>
    if 0 ∈ data.drop 1 then
      let idx := (data.drop 1).indexOf 0
      let server_version := String.mk (((data.drop 1).take idx).map Char.ofNat)
      let i2 := 1 + idx + 1
      let tid_bytes := (data.drop i2).take 4
      if tid_bytes.length = 4 then
        let server_thread_id := le_int tid_bytes
        let salt1 := (data.drop (i2 + 4)).take 8
        let i4 := i2 + 4 + 9
        let cap_bytes := (data.drop i4).take 2
        if cap_bytes.length = 2 then
          let cap_lo := le_int cap_bytes
          let i5 := i4 + 2
          if data.length ≥ i5 + 6 then
            let ext := (data.drop i5).take 6
            let lang := ext.headD 0
            let stat := le_int ((ext.drop 1).take 2)
            let cap_h := le_int ((ext.drop 3).take 2)
            let sl0 := (ext.drop 5).headD 0
            let salt_len := max 12 (sl0 - 9)
            let i7 := i5 + 6 + 10
            if data.length ≥ i7 + salt_len then
              some { protocol_version := protocol_version,
                     server_version := server_version,
                     server_thread_id := server_thread_id,
                     salt := salt1 ++ (data.drop i7).take salt_len,
                     server_capabilities := cap_lo ||| (cap_h <<< 16),
                     server_language := some lang,
                     server_status := some stat }
            else
              some { protocol_version := protocol_version,
                     server_version := server_version,
                     server_thread_id := server_thread_id,
                     salt := salt1,
                     server_capabilities := cap_lo ||| (cap_h <<< 16),
                     server_language := some lang,
                     server_status := some stat }
          else
            none
        else none
      else none
    else none

/-- The 23-byte greeting of the claim: protocol version 10, server version
"5.7.10", thread id 42, an 8-byte salt, the filler byte and the low
capability word, and no extended capability block. -/
def greetingC4 : List Nat :=
  [10] ++ [53, 46, 55, 46, 49, 48] ++ [0] ++ [42, 0, 0, 0] ++
    [1, 2, 3, 4, 5, 6, 7, 8] ++ [0] ++ [0, 0]

/-- Sanity check of the embedding on a greeting that does carry the extended
capability block: parsing succeeds and yields protocol version 10, server
version "5.7.10" and thread id 42. -/
theorem get_server_information_extended :
    get_server_information
        (greetingC4 ++ [8, 2, 0, 0, 0, 21] ++ List.replicate 10 0 ++
          [9, 10, 11, 12, 13, 14, 15, 16, 17, 18, 19, 20])
      = some { protocol_version := 10, server_version := "5.7.10",
               server_thread_id := 42,
               salt := [1, 2, 3, 4, 5, 6, 7, 8, 9, 10, 11, 12, 13, 14, 15,
                 16, 17, 18, 19, 20],
               server_capabilities := 0, server_language := some 8,
               server_status := some 2 } := by
  decide

/-- C4 (code bug): parsing the claim's greeting — protocol version 10,
server version "5.7.10", thread id 42, 8-byte salt, no extended capability
block — does not succeed: because the `len(data) >= i + 6` branch that
assigns `salt_len` is skipped, the comparison `len(data) >= i + salt_len` at
line 564 raises `UnboundLocalError` instead of returning the parsed
handshake fields. -/
theorem handshake_no_ext_block_unbound_salt_len :
    get_server_information greetingC4 = none := by
  decide

/-! ## C6: ping reconnect policy (`Connection.ping`) -/

/-- Observable events of a `ping` call: a full reconnect
(`yield from self.connect()`) or one ping attempt (`_execute_command(COM_PING)`
plus `_read_ok_packet()`), tagged with whether the attempt succeeded. -/
inductive PingEvent where
  | reconnect
  | attempt (ok : Bool)
deriving DecidableEq, Repr

/-- Outcome of a `ping` call. -/
inductive PingOutcome where
  | ok
  | err
  | alreadyClosed
  | hang
deriving DecidableEq, Repr

/-- The `try/except` body of `Connection.ping` (lines 318-326) with the
outcome of each successive ping attempt supplied by `outcomes`: a successful
attempt returns; a failed attempt reconnects and retries via `self.ping(False)`
when `reconnect` is set (the retry, made on a freshly connected transport,
re-enters the same body with `reconnect = False`), and re-raises otherwise. -/
def ping_body : Bool → List Bool → PingOutcome × List PingEvent
  | _, [] => (PingOutcome.hang, [])
  | reconnect, o :: rest =>
    if o then (PingOutcome.ok, [PingEvent.attempt true])
    else if reconnect then
      ((ping_body false rest).1,
       PingEvent.attempt false :: PingEvent.reconnect ::
         (ping_body false rest).2)
    else (PingOutcome.err, [PingEvent.attempt false])

/-- `Connection.ping` (lines 309-326).  `halfOpen` models the guard
`self._writer and self._reader is None` (writer set but reader `None`): in
that state a permitted reconnect happens up front and the flag is cleared,
and a forbidden one raises `Error("Already closed")`; otherwise the
try/except body runs directly.  (The half-open state is unreachable through
the module's own code paths: `connect` assigns both streams and `close` only
clears the writer.) -/
def ping (reconnect halfOpen : Bool) (outcomes : List Bool) :
    PingOutcome × List PingEvent :=
  if halfOpen then
    if reconnect then
      ((ping_body false outcomes).1,
       PingEvent.reconnect :: (ping_body false outcomes).2)
    else (PingOutcome.alreadyClosed, [])
  else ping_body reconnect outcomes

/-- C6: with reconnection permitted, a failed ping attempt triggers exactly
one reconnect followed by exactly one retry with reconnection disabled, whose
outcome (success or failure) is final; with reconnection not permitted, the
first failure propagates immediately with no reconnect attempt. -/
theorem ping_reconnect_policy (o2 : Bool) (rest : List Bool) :
    ping true false (false :: o2 :: rest)
      = ((if o2 then PingOutcome.ok else PingOutcome.err),
         [PingEvent.attempt false, PingEvent.reconnect,
          PingEvent.attempt o2]) ∧
    ping false false (false :: rest)
      = (PingOutcome.err, [PingEvent.attempt false]) := by
  cases o2 <;> simp [ping, ping_body]

/-! ## C7: missing username -/

/-- `Connection.__init__` line 152, `self.user = user or DEFAULT_USER`: a
`None` or empty username is replaced by `DEFAULT_USER`
(`getpass.getuser()`, an external collaborator passed in here as
`defaultUser`). -/
def init_user (user : Option String) (defaultUser : String) : String :=
  match user with
  | none => defaultUser
  | some u => if u = "" then defaultUser else u

/-- Transport events of connection establishment. -/
inductive ConnectEvent where
  | openTransport
  | readGreeting
  | writeAuthPacket
  | readAuthResult
deriving DecidableEq, Repr

/-- Errors of connection establishment relevant to the username check. -/
inductive ConnectError where
  | missingUsername
deriving DecidableEq, Repr

/-- `Connection._request_authentication` (lines 470-512) restricted to its
username handling: the check `if self.user is None: raise ValueError(...)`
precedes the write of the handshake response; `selfUser` is the `self.user`
attribute (an `Option` because the check compares against Python `None`).
The subsequent legacy-auth exchange is irrelevant to the check and is
summarized by the final read. -/
def request_authentication (selfUser : Option String) :
    List ConnectEvent × Option ConnectError :=
  match selfUser with
  | none => ([], some ConnectError.missingUsername)
  | some _ =>
    ([ConnectEvent.writeAuthPacket, ConnectEvent.readAuthResult], none)

/-- `Connection.connect` (lines 339-376) as the ordered transport events of
a successful socket open: the transport is opened, the greeting packet is
read by `_get_server_information`, and only then `_request_authentication`
runs — with `self.user` the value assigned by `__init__`. -/
def connect_events (user : Option String) (defaultUser : String) :
    List ConnectEvent × Option ConnectError :=
  ((ConnectEvent.openTransport :: ConnectEvent.readGreeting ::
      (request_authentication (some (init_user user defaultUser))).1),
   (request_authentication (some (init_user user defaultUser))).2)

/-- C7 counterexample: a connect attempt with a missing username raises no
usage error at all — the username silently defaults and the full I/O
sequence (transport open, greeting read, authentication write and read)
runs.  In particular no error is raised "before any I/O". -/
theorem missing_username_no_error :
    connect_events none "root"
      = ([ConnectEvent.openTransport, ConnectEvent.readGreeting,
          ConnectEvent.writeAuthPacket, ConnectEvent.readAuthResult],
         none) := by
  decide

/-- C7 (amended): a missing (or empty) username is replaced by the process's
default login name at construction time, so `self.user` is never `None`,
connect proceeds with normal I/O and no usage error, and the
missing-username check inside `_request_authentication` — which in any case
only runs after the greeting packet has been read — can never fire. -/
theorem missing_username_defaulted (user : Option String)
    (defaultUser : String) :
    connect_events user defaultUser
      = ([ConnectEvent.openTransport, ConnectEvent.readGreeting,
          ConnectEvent.writeAuthPacket, ConnectEvent.readAuthResult],
         none) ∧
    init_user none defaultUser = defaultUser ∧
    (request_authentication (some (init_user user defaultUser))).2
      ≠ some ConnectError.missingUsername := by
  refine ⟨rfl, rfl, ?_⟩
  simp [request_authentication]

/-! ## C9: closing an already-disconnected connection -/

/-- `Connection.close` (lines 194-197): `self._writer.transport.close()`
followed by `self._writer = None`.  When `self._writer` is already `None`
the attribute access `None.transport` raises `AttributeError`, modelled as
`none`. -/
def conn_close (cs : ConnState) : Option ConnState :=
  if cs.writerOpen then some { cs with writerOpen := false } else none

/-- C9 counterexample: calling `close` on a disconnected connection (null
transport) is not ignorable — it raises (`AttributeError: 'NoneType' object
has no attribute 'transport'`) instead of leaving the state unchanged. -/
theorem close_disconnected_raises :
    conn_close (ConnState.mk false none) = none := by
  decide

/-- C9 (amended): `close` on a connected connection closes the transport and
nulls the handle, leaving the rest of the connection state unchanged — so
the transport is never closed twice — while `close` on an already
disconnected connection raises an `AttributeError` rather than being
silently ignored. -/
theorem close_amended (cs : ConnState) :
    (cs.writerOpen = true →
      conn_close cs = some { cs with writerOpen := false }) ∧
    (cs.writerOpen = false → conn_close cs = none) := by
  constructor <;> intro h <;> simp [conn_close, h]

/-- Witness for `close_amended` on a connected and a disconnected state. -/
theorem close_amended_witness :
    ((ConnState.mk true none).writerOpen = true ∧
      conn_close (ConnState.mk true none) = some (ConnState.mk false none)) ∧
    ((ConnState.mk false none).writerOpen = false ∧
      conn_close (ConnState.mk false none) = none) :=
  ⟨⟨rfl, (close_amended (ConnState.mk true none)).1 rfl⟩,
   ⟨rfl, (close_amended (ConnState.mk false none)).2 rfl⟩⟩
